import Mathlib

/-!
Verification development for the retail analytics engine
(`retail_analytics.py` and companions).

The Python source operates on pandas DataFrames; here each table is a
`List` of records, numeric amounts are `ℚ` (exact rationals standing for
the source's floats), point balances are `ℤ`, and nullable columns are
`Option` fields.  Each embedded function carries a doc comment naming the
source function and lines it mirrors.
-/

namespace Retail

/-- Clean (post-quality) sales header row: the `store_sales_header`
columns used by `loyalty_engine`, `promotion_funnel` and `event_log`.
`transaction_date` is a day/timestamp number. -/
structure Tx where
  transaction_id : Nat
  customer_id : Nat
  transaction_date : ℤ
  total_amount : ℚ
deriving DecidableEq

instance : Inhabited Tx := ⟨⟨0, 0, 0, 0⟩⟩

/-- Raw header row as seen by `quality_layer`: every required column may
be null (`none` models pandas `NaN`). -/
structure HeaderRec where
  transaction_id : Option Nat
  customer_id : Option Nat
  store_id : Option Nat
  transaction_date : Option ℤ
  total_amount : Option ℚ
deriving DecidableEq

/-- Row of `store_sales_line_items`.  `line_item_amount` is nullable
(pandas skips `NaN` in group sums); `promotion_id` is nullable. -/
structure LineItem where
  transaction_id : Nat
  product_id : Option Nat
  quantity : ℚ
  line_item_amount : Option ℚ
  promotion_id : Option Nat
deriving DecidableEq

/-- Row of `promotion_details` (columns used by `promotion_funnel`). -/
structure Promo where
  promotion_id : Nat
  start_date : ℤ
  end_date : ℤ
deriving DecidableEq

/-- Row of the DataFrame returned by `loyalty_engine`
(retail_analytics.py lines 113-119). -/
structure LoyaltyResult where
  transaction_id : Nat
  customer_id : Nat
  coins_earned : ℤ
  coins_redeemed : ℤ
  updated_balance : ℤ
deriving DecidableEq

instance : Inhabited LoyaltyResult := ⟨⟨0, 0, 0, 0, 0⟩⟩

/-- Columns of an `rfm_segmentation` output row consumed by `event_log`
and `notification_simulator`. -/
structure RfmRow where
  customer_id : Nat
  segment : String
deriving DecidableEq

/-- Per-customer working row inside `rfm_segmentation` after recency,
`m_score` and the merge with `customer_details` have been computed
(retail_analytics.py lines 169-179): exactly the columns read by the
segment assignment on lines 181-183. -/
structure CustRow where
  customer_id : Nat
  recency : ℤ
  m_score : ℤ
  total_loyalty_points : ℤ
deriving DecidableEq

/-- Row of the events DataFrame built by `event_log`
(retail_analytics.py lines 195-212).  The Python rows are dicts with
differing key sets; absent keys surface as `NaN` in the DataFrame, so
every field here is optional except the event name. -/
structure Event where
  customer_id : Option Nat
  event : String
  date : Option ℤ
  transaction_id : Option Nat
  coins : Option ℤ
  promotion_id : Option Nat
deriving DecidableEq

/-- Log row produced by `notification_simulator`
(retail_analytics.py lines 238-244).  `dist_to_next` embeds the local
variable of line 229, from which the `call_to_action` string of
line 237 is formatted. -/
structure NotifLog where
  customer_id : Nat
  template_used : String
  points_earned : ℤ
  total_points : ℤ
  dist_to_next : ℤ
  call_to_action : String
deriving DecidableEq

/-- One (store, top-5 product) pair after the aggregation and merges of
`inventory_risk_analysis` (retail_analytics.py lines 295-306): the
window total of units sold for the pair (`fillna` 0) and the current
stock level (`fillna` 0). -/
structure PairAgg where
  store_id : Nat
  product_id : Nat
  total_units : ℚ
  current_stock_level : ℚ
deriving DecidableEq

/-- Output row of `inventory_risk_analysis` (retail_analytics.py
line 326).  `days_of_inventory_left` is `none` where the source holds
`NaN` (division by a zero sales rate, lines 307). -/
structure InvRiskRow where
  store_id : Nat
  product_id : Nat
  avg_daily_sales : ℚ
  current_stock_level : ℚ
  days_of_inventory_left : Option ℚ
  risk : String
  potential_lost_units : ℚ
  potential_lost_revenue : ℚ
deriving DecidableEq

/-- Output row of `promotion_funnel` (retail_analytics.py
lines 146-154). -/
structure FunnelRow where
  promotion_id : Nat
  eligible : Nat
  reacted : Nat
  purchased : Nat
  pct_reacted : ℚ
  pct_purchased : ℚ
deriving DecidableEq

/-! ## Quality layer (retail_analytics.py lines 13-42) -/

/-- Null check of line 22: any of the required header columns
`['transaction_id','customer_id','store_id','transaction_date','total_amount']`
is null. -/
def headerHasNull (h : HeaderRec) : Bool :=
  h.transaction_id.isNone || h.customer_id.isNone || h.store_id.isNone ||
    h.transaction_date.isNone || h.total_amount.isNone

/-- Negative check of line 25, `store_sales_header['total_amount'] < 0`:
pandas yields `False` on a `NaN` total. -/
def headerNeg (h : HeaderRec) : Bool :=
  match h.total_amount with
  | some t => decide (t < 0)
  | none => false

/-- Group sum of line 28,
`store_sales_line_items.groupby('transaction_id')['line_item_amount'].sum()`:
`none` when the transaction has no line rows (no group), otherwise the
sum of its line amounts with `NaN` amounts skipped (pandas default
`skipna`, contributing zero). -/
def lineSum (lines : List LineItem) (txid : Nat) : Option ℚ :=
  let group := lines.filter (fun l => l.transaction_id = txid)
  if group.isEmpty then none
  else some ((group.map (fun l => l.line_item_amount.getD 0)).sum)

/-- Elementwise mismatch test of line 29 on the aligned path
(`... ['total_amount'] != line_sums` compares the totals by exact
inequality; a NaN total compares unequal).  The partition
`quality_layer_header` below only evaluates this under its
label-alignment guard, where every header id is non-null and has a line
group, so the two fallback branches are unreachable there; their value
is the `True` that line 30's `fillna(True)` writes where no comparison
value exists. -/
def headerMismatch (lines : List LineItem) (h : HeaderRec) : Bool :=
  match h.transaction_id with
  | some txid =>
    match lineSum lines txid with
    | some s =>
      match h.total_amount with
      | some t => decide (t ≠ s)
      | none => true
    | none => true
  | none => true

/-- Combined header rejection mask of lines 32/35:
`header_nulls | header_neg | header_mismatch`. -/
def header_rejected (lines : List LineItem) (h : HeaderRec) : Bool :=
  headerHasNull h || headerNeg h || headerMismatch lines h

/-- Insertion of a key into an ascending list, for the sorted group-by
index below. -/
def insertSorted (n : Nat) : List Nat → List Nat
  | [] => [n]
  | m :: ms => if n ≤ m then n :: m :: ms else m :: insertSorted n ms

/-- Ascending insertion sort on keys, for the sorted group-by index
below. -/
def sortNat : List Nat → List Nat
  | [] => []
  | n :: ns => insertSorted n (sortNat ns)

/-- Index labels of
`store_sales_header.set_index('transaction_id')['total_amount']`:
the header transaction ids in table order, `none` standing for the NaN
label a null id becomes. -/
def headerLabels (headers : List HeaderRec) : List (Option Nat) :=
  headers.map (fun h => h.transaction_id)

/-- Index labels of `line_sums` (line 28): pandas `groupby` drops NaN
keys and sorts the remaining keys ascending, so the index is the
distinct line transaction ids in ascending order (line ids are non-null
in this schema). -/
def lineSumLabels (lines : List LineItem) : List Nat :=
  sortNat (lines.map (fun l => l.transaction_id)).dedup

/-- The header partition of `quality_layer` (lines 19-35,
`clean_header` and `rejected_header`).  Line 29 compares two Series
with `!=`, and pandas raises
`ValueError: Can only compare identically-labeled Series objects`
unless the header index equals the group-sum index label-for-label in
order; in that case `quality_layer` raises and produces no partition,
modelled as `none`.  When the labels are identical the comparison is
elementwise, the subsequent `reindex(...).fillna(True)` of line 30 is a
no-op (same unique labels, no NaN introduced), and the headers are
split by the null, negative and exact-mismatch masks. -/
def quality_layer_header (headers : List HeaderRec)
    (lines : List LineItem) : Option (List HeaderRec × List HeaderRec) :=
  if headerLabels headers = (lineSumLabels lines).map some then
    some (headers.filter (fun h => ! header_rejected lines h),
      headers.filter (fun h => header_rejected lines h))
  else none

/-- Example header for the quality-layer analysis: all required fields
present, total 10.005, belonging to transaction 1. -/
def exampleHeader : HeaderRec :=
  ⟨some 1, some 1, some 1, some 0, some (2001 / 200)⟩

/-- Example line row of transaction 1 with amount 10. -/
def exampleLine : LineItem := ⟨1, some 1, 1, some 10, none⟩

/-! ## SuperCoins loyalty engine (retail_analytics.py lines 89-120) -/

/-- Coins earned on line 106:
`earned = min(int(np.floor(amt * 0.02)), 100)`. -/
def loyaltyEarned (amt : ℚ) : ℤ := min ⌊amt * (2 / 100)⌋ 100

/-- Coins redeemable on line 109:
`redeemable = min(int(np.floor(existing * 0.10)), earned)`. -/
def loyaltyRedeemable (existing earned : ℤ) : ℤ :=
  min ⌊(existing : ℚ) * (10 / 100)⌋ earned

/-- One iteration of the `for _, tx in store_sales_header.iterrows()`
loop (lines 101-119): reads the running balance (0 when the customer id
is absent from the index, line 108), computes earn and redeem, writes
the new balance back into the working table (line 112, `.at` assignment
with enlargement for a fresh id), and yields the result row.  The
working table `customers` is modelled as the map `Nat → Option ℤ` from
customer id to `total_loyalty_points`. -/
def loyaltyStep (bal : Nat → Option ℤ) (tx : Tx) :
    LoyaltyResult × (Nat → Option ℤ) :=
  let earned := loyaltyEarned tx.total_amount
  let existing := (bal tx.customer_id).getD 0
  let redeemable := loyaltyRedeemable existing earned
  let new_balance := existing + earned - redeemable
  (⟨tx.transaction_id, tx.customer_id, earned, redeemable, new_balance⟩,
   fun c => if c = tx.customer_id then some new_balance else bal c)

/-- Function `loyalty_engine` (lines 89-120): iterates the transactions
in table order, threading the working balance table, and returns the
list of result rows together with the final balances.  The initial map
is the caller's `customer_details` keyed by `customer_id` (line 99
takes a private copy, so threading starts from the stored
`total_loyalty_points`). -/
def loyalty_engine : List Tx → (Nat → Option ℤ) →
    List LoyaltyResult × (Nat → Option ℤ)
  | [], bal => ([], bal)
  | tx :: rest, bal =>
    let step := loyaltyStep bal tx
    let tail := loyalty_engine rest step.2
    (step.1 :: tail.1, tail.2)

/-- Line 99 of retail_analytics.py reads
`customers = customer_details.set_index('customer_id').copy()` and the
function never writes to `customer_details` again: the caller's
customer table after a call to `loyalty_engine` is exactly the table it
passed in.  The table is a list of
(customer_id, total_loyalty_points) rows. -/
def loyalty_engine_callerTableAfter (_txs : List Tx)
    (customer_details : List (Nat × ℤ)) : List (Nat × ℤ) :=
  customer_details

/-- Lookup in `customer_details.set_index('customer_id')`: the stored
balance of a customer, `none` when the id is absent from the index. -/
def tableLookup (tbl : List (Nat × ℤ)) (c : Nat) : Option ℤ :=
  (tbl.find? (fun p => p.1 = c)).map (fun p => p.2)

/-- The balance the engine reads for the transaction at position `i`:
the balance left for that customer by the run over the first `i`
transactions (initially the stored `total_loyalty_points`, with a
missing customer read as 0 — line 108). -/
def loyaltyExistingBefore (txs : List Tx) (bal : Nat → Option ℤ)
    (i : Nat) : ℤ :=
  ((loyalty_engine (txs.take i) bal).2 (txs.getD i default).customer_id).getD 0

/-! ## RFM segmentation (retail_analytics.py lines 158-186) -/

/-- Segment assignment of `rfm_segmentation` (lines 181-183): the
column starts as `Core`; the mask `m_score >= 10` then overwrites with
`High Spenders`; the mask `recency > 60 and total_loyalty_points > 0`
finally overwrites with `At-Risk`.  Later `.loc` writes supersede
earlier ones. -/
def assign_segment (c : CustRow) : String :=
  let s0 := "Core"
  let s1 := if 10 ≤ c.m_score then "High Spenders" else s0
  let s2 := if 60 < c.recency ∧ 0 < c.total_loyalty_points then "At-Risk" else s1
  s2

/-! ## Event log (retail_analytics.py lines 189-212) -/

/-- Transaction event appended on line 198. -/
def mkTransactionEvent (tx : Tx) : Event :=
  ⟨some tx.customer_id, "transaction", some tx.transaction_date,
    some tx.transaction_id, none, none⟩

/-- Promotion-purchase event appended on line 202 for each line item
with a non-null `promotion_id` (filter of line 200). -/
def mkPromoPurchaseEvent (l : LineItem) : Event :=
  ⟨none, "promotion_purchase", none, some l.transaction_id, none,
    l.promotion_id⟩

/-- Coin events appended per loyalty result row on lines 204-207: a
`coins_earned` event unconditionally (line 205), and a `coins_redeemed`
event only when `coins_redeemed > 0` (lines 206-207). -/
def mkCoinsEvents (r : LoyaltyResult) : List Event :=
  ⟨some r.customer_id, "coins_earned", none, some r.transaction_id,
      some r.coins_earned, none⟩ ::
    (if 0 < r.coins_redeemed then
      [⟨some r.customer_id, "coins_redeemed", none, some r.transaction_id,
        some r.coins_redeemed, none⟩]
    else [])

/-- Inactivity event appended on lines 209-211 for each RFM row whose
segment is `At-Risk`. -/
def mkInactivityEvent (r : RfmRow) : Event :=
  ⟨some r.customer_id, "inactivity_threshold", none, none, none, none⟩

/-- Function `event_log` (lines 189-212): the four loops append, in
order, transaction events, promotion-purchase events, coin events, and
inactivity events. -/
def event_log (headers : List Tx) (lines : List LineItem)
    (loyalty_df : List LoyaltyResult) (rfm_df : List RfmRow) : List Event :=
  headers.map mkTransactionEvent
    ++ (lines.filter (fun l => l.promotion_id.isSome)).map mkPromoPurchaseEvent
    ++ loyalty_df.flatMap mkCoinsEvents
    ++ (rfm_df.filter (fun r => r.segment = "At-Risk")).map mkInactivityEvent

/-! ## Notification simulator (retail_analytics.py lines 215-245) -/

/-- Function `notification_simulator` (lines 215-245): for each loyalty
row with `coins_earned > 0` (line 223), looks up the customer's segment
in the RFM output (first matching row, line 224; `Unknown` when absent,
line 225), computes the distance to the next 100-coin reward
(line 229, `100 - (total_points % 100)`), selects a template
(lines 231-236) and formats the call-to-action string (line 237). -/
def notification_simulator (loyalty_df : List LoyaltyResult)
    (rfm_df : List RfmRow) : List NotifLog :=
  loyalty_df.filterMap (fun r =>
    if 0 < r.coins_earned then
      let segment :=
        match rfm_df.find? (fun c => c.customer_id = r.customer_id) with
        | some c => c.segment
        | none => "Unknown"
      let dist_to_next := 100 - r.updated_balance % 100
      let template :=
        if segment = "High Spenders" then "VIP_Earned"
        else if segment = "At-Risk" then "Reactivation_Nudge"
        else "Standard_Earned"
      some ⟨r.customer_id, template, r.coins_earned, r.updated_balance,
        dist_to_next,
        "Earn " ++ toString dist_to_next ++ " more coins for your next reward!"⟩
    else none)

/-! ## Promotion funnel (retail_analytics.py lines 123-155) -/

/-- One iteration of the promotion loop in `promotion_funnel`
(lines 132-154): eligible customers are those with a transaction inside
the inclusive window (line 136); reacted customers are those whose
transactions carry a line with this promotion id (lines 139-140, the
merge on `transaction_id`); purchased equals reacted (lines 142, 145);
percentages divide by the eligible count, with 0 substituted when it is
zero (lines 152-153). -/
def funnel_row (headers : List Tx) (lines : List LineItem)
    (promo : Promo) : FunnelRow :=
  let eligible_tx := headers.filter (fun tx =>
    promo.start_date ≤ tx.transaction_date ∧
      tx.transaction_date ≤ promo.end_date)
  let eligible_customers := (eligible_tx.map (fun tx => tx.customer_id)).dedup
  let reacted_lines := lines.filter (fun l =>
    l.promotion_id = some promo.promotion_id)
  let reacted_customers :=
    (reacted_lines.flatMap (fun l =>
      (headers.filter (fun tx => tx.transaction_id = l.transaction_id)).map
        (fun tx => tx.customer_id))).dedup
  let n_eligible := eligible_customers.length
  let n_reacted :=
    (reacted_customers.filter (fun c => c ∈ eligible_customers)).length
  let n_purchased := n_reacted
  { promotion_id := promo.promotion_id
    eligible := n_eligible
    reacted := n_reacted
    purchased := n_purchased
    pct_reacted :=
      if n_eligible = 0 then 0 else (n_reacted : ℚ) / (n_eligible : ℚ) * 100
    pct_purchased :=
      if n_eligible = 0 then 0
      else (n_purchased : ℚ) / (n_eligible : ℚ) * 100 }

/-- Function `promotion_funnel` (lines 123-155): one funnel row per
promotion. -/
def promotion_funnel (headers : List Tx) (lines : List LineItem)
    (promos : List Promo) : List FunnelRow :=
  promos.map (funnel_row headers lines)

/-! ## Inventory risk analysis (retail_analytics.py lines 248-326) -/

/-- Window constant of line 292 (`days = 7`). -/
def window_days : ℚ := 7

/-- Risk classification of lines 310-315: `Unknown` on an undefined
(NaN) coverage, then `Critical` below 2 days, `Watchlist` below 5,
`Overstocked` above 20, else `Safe`. -/
def classify (x : Option ℚ) : String :=
  match x with
  | none => "Unknown"
  | some d =>
    if d < 2 then "Critical"
    else if d < 5 then "Watchlist"
    else if 20 < d then "Overstocked"
    else "Safe"

/-- Per-pair computation of `inventory_risk_analysis` starting from the
aggregated (store, product) pair (lines 299, 307, 317, 320-321):
`avg_daily_sales = total_units / days`;
`days_of_inventory_left = current_stock_level / avg_daily_sales` with
the zero rate first replaced by NaN (`replace(0, np.nan)`), modelled as
`none`; risk classification; and
`potential_lost_units = np.where(days_of_inventory_left < 1, avg_daily_sales, 0)`
— a NaN coverage compares false, giving 0 — with
`potential_lost_revenue = potential_lost_units * avg_daily_sales`. -/
def inventory_risk_row (p : PairAgg) : InvRiskRow :=
  let avg := p.total_units / window_days
  let days : Option ℚ :=
    if avg = 0 then none else some (p.current_stock_level / avg)
  let lost_units : ℚ :=
    match days with
    | some d => if d < 1 then avg else 0
    | none => 0
  { store_id := p.store_id
    product_id := p.product_id
    avg_daily_sales := avg
    current_stock_level := p.current_stock_level
    days_of_inventory_left := days
    risk := classify days
    potential_lost_units := lost_units
    potential_lost_revenue := lost_units * avg }

/-- Rows of `inventory_risk_analysis` (lines 248-326), one per
aggregated (store, top-5 product) pair. -/
def inventory_risk_analysis (pairs : List PairAgg) : List InvRiskRow :=
  pairs.map inventory_risk_row

/-! ## Helper lemmas about the loyalty ledger -/

lemma loyalty_engine_length (txs : List Tx) :
    ∀ bal, (loyalty_engine txs bal).1.length = txs.length := by
  induction txs with
  | nil => intro bal; rfl
  | cons tx rest ih => intro bal; simp [loyalty_engine, ih]

lemma loyalty_engine_getD (txs : List Tx) :
    ∀ (bal : Nat → Option ℤ) (i : Nat), i < txs.length →
      (loyalty_engine txs bal).1.getD i default =
        (loyaltyStep ((loyalty_engine (txs.take i) bal).2)
          (txs.getD i default)).1 := by
  induction txs with
  | nil => intro bal i h; exact absurd h (by simp)
  | cons tx rest ih =>
    intro bal i h
    cases i with
    | zero => rfl
    | succ i =>
      have h2 : i < rest.length := by simpa using h
      simpa [loyalty_engine] using ih (loyaltyStep bal tx).2 i h2

/-! ## Claim theorems -/

/-- C4: for every transaction processed by `loyalty_engine`,
`earned = min(floor(total_amount * 0.02), 100)`,
`redeemed = min(floor(existing_balance * 0.10), earned)` and
`updated_balance = existing_balance + earned - redeemed`, where
`existing_balance` is the balance left by the run over the preceding
transactions in table order (initially the stored
`total_loyalty_points`); hence redemption never exceeds the points just
earned nor the floored 10% of the pre-transaction balance. -/
theorem loyalty_per_transaction_formulas (txs : List Tx)
    (bal : Nat → Option ℤ) (i : Nat) (h : i < txs.length) :
    ((loyalty_engine txs bal).1.getD i default).coins_earned =
        min ⌊(txs.getD i default).total_amount * (2 / 100)⌋ 100 ∧
    ((loyalty_engine txs bal).1.getD i default).coins_redeemed =
        min ⌊(loyaltyExistingBefore txs bal i : ℚ) * (10 / 100)⌋
          ((loyalty_engine txs bal).1.getD i default).coins_earned ∧
    ((loyalty_engine txs bal).1.getD i default).updated_balance =
        loyaltyExistingBefore txs bal i
          + ((loyalty_engine txs bal).1.getD i default).coins_earned
          - ((loyalty_engine txs bal).1.getD i default).coins_redeemed ∧
    ((loyalty_engine txs bal).1.getD i default).coins_redeemed ≤
        ((loyalty_engine txs bal).1.getD i default).coins_earned ∧
    ((loyalty_engine txs bal).1.getD i default).coins_redeemed ≤
        ⌊(loyaltyExistingBefore txs bal i : ℚ) * (10 / 100)⌋ := by
  rw [loyalty_engine_getD txs bal i h]
  refine ⟨rfl, rfl, rfl, min_le_right _ _, min_le_left _ _⟩

/-- Witness for C4 at the one-transaction batch
`[(tx 1, customer 1, amount 1000)]` with stored balance 0. -/
theorem loyalty_per_transaction_formulas_witness :
    0 < ([⟨1, 1, 0, 1000⟩] : List Tx).length ∧
    (((loyalty_engine [⟨1, 1, 0, 1000⟩] (fun _ => some 0)).1.getD 0
          default).coins_earned =
        min ⌊(([⟨1, 1, 0, 1000⟩] : List Tx).getD 0 default).total_amount *
          (2 / 100)⌋ 100 ∧
      ((loyalty_engine [⟨1, 1, 0, 1000⟩] (fun _ => some 0)).1.getD 0
          default).coins_redeemed =
        min ⌊(loyaltyExistingBefore [⟨1, 1, 0, 1000⟩] (fun _ => some 0) 0 : ℚ) *
            (10 / 100)⌋
          ((loyalty_engine [⟨1, 1, 0, 1000⟩] (fun _ => some 0)).1.getD 0
            default).coins_earned ∧
      ((loyalty_engine [⟨1, 1, 0, 1000⟩] (fun _ => some 0)).1.getD 0
          default).updated_balance =
        loyaltyExistingBefore [⟨1, 1, 0, 1000⟩] (fun _ => some 0) 0
          + ((loyalty_engine [⟨1, 1, 0, 1000⟩] (fun _ => some 0)).1.getD 0
              default).coins_earned
          - ((loyalty_engine [⟨1, 1, 0, 1000⟩] (fun _ => some 0)).1.getD 0
              default).coins_redeemed ∧
      ((loyalty_engine [⟨1, 1, 0, 1000⟩] (fun _ => some 0)).1.getD 0
          default).coins_redeemed ≤
        ((loyalty_engine [⟨1, 1, 0, 1000⟩] (fun _ => some 0)).1.getD 0
          default).coins_earned ∧
      ((loyalty_engine [⟨1, 1, 0, 1000⟩] (fun _ => some 0)).1.getD 0
          default).coins_redeemed ≤
        ⌊(loyaltyExistingBefore [⟨1, 1, 0, 1000⟩] (fun _ => some 0) 0 : ℚ) *
          (10 / 100)⌋) :=
  ⟨by decide,
    loyalty_per_transaction_formulas [⟨1, 1, 0, 1000⟩] (fun _ => some 0) 0
      (by decide)⟩

/-- C5: for any sequence of transactions with nonnegative amounts and
nonnegative initial balances, every `updated_balance` reported by the
ledger and every final per-customer balance is nonnegative. -/
theorem loyalty_balance_nonneg (txs : List Tx) (bal : Nat → Option ℤ) :
    (∀ tx ∈ txs, 0 ≤ tx.total_amount) →
    (∀ c b, bal c = some b → 0 ≤ b) →
    (∀ r ∈ (loyalty_engine txs bal).1, 0 ≤ r.updated_balance) ∧
    (∀ c b, (loyalty_engine txs bal).2 c = some b → 0 ≤ b) := by
  induction txs generalizing bal with
  | nil =>
    intro _ hbal
    exact ⟨by simp [loyalty_engine], by simpa [loyalty_engine] using hbal⟩
  | cons tx rest ih =>
    intro hamt hbal
    have hex : 0 ≤ (bal tx.customer_id).getD 0 := by
      cases hb : bal tx.customer_id with
      | none => simp
      | some b => simpa using hbal _ b hb
    have hearn : 0 ≤ loyaltyEarned tx.total_amount := by
      have h0 := hamt tx (List.mem_cons_self tx rest)
      have h1 : (0 : ℚ) ≤ tx.total_amount * (2 / 100) :=
        mul_nonneg h0 (by norm_num)
      exact le_min (Int.floor_nonneg.2 h1) (by norm_num)
    have hred_le :
        loyaltyRedeemable ((bal tx.customer_id).getD 0)
          (loyaltyEarned tx.total_amount) ≤ loyaltyEarned tx.total_amount :=
      min_le_right _ _
    have hnb : 0 ≤ (bal tx.customer_id).getD 0 + loyaltyEarned tx.total_amount
        - loyaltyRedeemable ((bal tx.customer_id).getD 0)
            (loyaltyEarned tx.total_amount) := by omega
    have hbal2 : ∀ c b, (loyaltyStep bal tx).2 c = some b → 0 ≤ b := by
      intro c b hc
      simp only [loyaltyStep] at hc
      by_cases hcc : c = tx.customer_id
      · rw [if_pos hcc] at hc
        injection hc with hcb
        subst hcb
        exact hnb
      · rw [if_neg hcc] at hc
        exact hbal c b hc
    obtain ⟨ih1, ih2⟩ := ih (loyaltyStep bal tx).2
      (fun t ht => hamt t (List.mem_cons_of_mem _ ht)) hbal2
    constructor
    · intro r hr
      rcases List.mem_cons.1 (by simpa [loyalty_engine] using hr) with hr1 | hr2
      · subst hr1
        simpa [loyaltyStep] using hnb
      · exact ih1 r hr2
    · simpa [loyalty_engine] using ih2

/-- Witness for C5 at the one-transaction batch
`[(tx 1, customer 1, amount 1000)]` with no stored balances. -/
theorem loyalty_balance_nonneg_witness :
    (∀ tx ∈ ([⟨1, 1, 0, 1000⟩] : List Tx), 0 ≤ tx.total_amount) ∧
    (∀ c b, (fun _ : Nat => (none : Option ℤ)) c = some b → 0 ≤ b) ∧
    ((∀ r ∈ (loyalty_engine [⟨1, 1, 0, 1000⟩] (fun _ => none)).1,
        0 ≤ r.updated_balance) ∧
      (∀ c b, (loyalty_engine [⟨1, 1, 0, 1000⟩] (fun _ => none)).2 c = some b →
        0 ≤ b)) := by
  have h1 : ∀ tx ∈ ([⟨1, 1, 0, 1000⟩] : List Tx), 0 ≤ tx.total_amount := by
    intro tx htx
    rw [List.mem_singleton] at htx
    subst htx
    norm_num
  have h2 : ∀ c b, (fun _ : Nat => (none : Option ℤ)) c = some b → 0 ≤ b := by
    intro c b hc
    exact absurd hc (by simp)
  exact ⟨h1, h2, loyalty_balance_nonneg [⟨1, 1, 0, 1000⟩] (fun _ => none) h1 h2⟩

/-- C6 counterexample: `loyalty_engine` computes on a private copy
(line 99), so after a run over customer 1 with one 1000-unit
transaction the caller's table still stores balance 0 while the run's
final balance for that customer is 20 — the caller's table does not
reflect the post-run balance. -/
theorem loyalty_engine_in_place_counterexample :
    tableLookup (loyalty_engine_callerTableAfter [⟨1, 1, 0, 1000⟩] [(1, 0)]) 1 =
        some 0 ∧
    (loyalty_engine [⟨1, 1, 0, 1000⟩] (tableLookup [(1, 0)])).2 1 = some 20 ∧
    (0 : ℤ) ≠ 20 := by
  refine ⟨rfl, ?_, by decide⟩
  simp only [loyalty_engine, loyaltyStep, loyaltyEarned, loyaltyRedeemable,
    tableLookup, List.find?]
  norm_num

/-- C6 amended: `loyalty_engine` does not mutate the caller's customer
table (it operates on a private copy, so the table is unchanged after a
call), and it returns one result record per transaction regardless of
whether earned is zero. -/
theorem loyalty_engine_no_table_mutation (txs : List Tx)
    (tbl : List (Nat × ℤ)) :
    loyalty_engine_callerTableAfter txs tbl = tbl ∧
    (loyalty_engine txs (tableLookup tbl)).1.length = txs.length :=
  ⟨rfl, loyalty_engine_length txs (tableLookup tbl)⟩

lemma loyalty_engine_fst_zero_default (txs : List Tx) :
    ∀ (bal1 bal2 : Nat → Option ℤ) (cid : Nat),
      bal1 cid = none → bal2 cid = some 0 →
      (∀ c, c ≠ cid → bal2 c = bal1 c) →
      (loyalty_engine txs bal1).1 = (loyalty_engine txs bal2).1 := by
  induction txs with
  | nil => intro _ _ _ _ _ _; rfl
  | cons tx rest ih =>
    intro bal1 bal2 cid h1 h2 hagree
    have hex : (bal2 tx.customer_id).getD 0 = (bal1 tx.customer_id).getD 0 := by
      by_cases hc : tx.customer_id = cid
      · rw [hc, h1, h2]; rfl
      · rw [hagree _ hc]
    simp only [loyalty_engine, loyaltyStep, hex]
    by_cases hc : tx.customer_id = cid
    · have hmap :
          (fun c => if c = tx.customer_id then
              some ((bal1 tx.customer_id).getD 0 +
                loyaltyEarned tx.total_amount -
                loyaltyRedeemable ((bal1 tx.customer_id).getD 0)
                  (loyaltyEarned tx.total_amount))
            else bal2 c) =
          (fun c => if c = tx.customer_id then
              some ((bal1 tx.customer_id).getD 0 +
                loyaltyEarned tx.total_amount -
                loyaltyRedeemable ((bal1 tx.customer_id).getD 0)
                  (loyaltyEarned tx.total_amount))
            else bal1 c) := by
        funext c
        by_cases hcc : c = tx.customer_id
        · rw [if_pos hcc, if_pos hcc]
        · rw [if_neg hcc, if_neg hcc, hagree c (by rw [hc] at hcc; exact hcc)]
      rw [hmap]
    · have hnecid : ¬cid = tx.customer_id := fun hcid => hc (Eq.symm hcid)
      have h1n : (fun c => if c = tx.customer_id then
          some ((bal1 tx.customer_id).getD 0 + loyaltyEarned tx.total_amount -
            loyaltyRedeemable ((bal1 tx.customer_id).getD 0)
              (loyaltyEarned tx.total_amount))
          else bal1 c) cid = none := by
        simp only [if_neg hnecid, h1]
      have h2n : (fun c => if c = tx.customer_id then
          some ((bal1 tx.customer_id).getD 0 + loyaltyEarned tx.total_amount -
            loyaltyRedeemable ((bal1 tx.customer_id).getD 0)
              (loyaltyEarned tx.total_amount))
          else bal2 c) cid = some 0 := by
        simp only [if_neg hnecid, h2]
      have hagree2 : ∀ c, c ≠ cid →
          (fun c => if c = tx.customer_id then
              some ((bal1 tx.customer_id).getD 0 +
                loyaltyEarned tx.total_amount -
                loyaltyRedeemable ((bal1 tx.customer_id).getD 0)
                  (loyaltyEarned tx.total_amount))
            else bal2 c) c =
          (fun c => if c = tx.customer_id then
              some ((bal1 tx.customer_id).getD 0 +
                loyaltyEarned tx.total_amount -
                loyaltyRedeemable ((bal1 tx.customer_id).getD 0)
                  (loyaltyEarned tx.total_amount))
            else bal1 c) c := by
        intro c hcc
        by_cases hct : c = tx.customer_id
        · simp only [if_pos hct]
        · simp only [if_neg hct, hagree c hcc]
      rw [ih _ _ cid h1n h2n hagree2]

/-- C10: a transaction whose customer id is absent from the customer
table is processed with pre-transaction balance 0 — the whole run
produces the same result rows as if the customer had been stored with
balance 0 — and every transaction still gets a result row. -/
theorem loyalty_engine_missing_customer (txs : List Tx)
    (bal : Nat → Option ℤ) (cid : Nat) (h : bal cid = none) :
    (loyalty_engine txs bal).1 =
      (loyalty_engine txs (fun c => if c = cid then some 0 else bal c)).1 ∧
    (loyalty_engine txs bal).1.length = txs.length := by
  refine ⟨?_, loyalty_engine_length txs bal⟩
  exact loyalty_engine_fst_zero_default txs bal
    (fun c => if c = cid then some 0 else bal c) cid h (by simp)
    (fun c hc => by simp [hc])

/-- Witness for C10: a two-transaction batch of customer 1, absent from
the stored balances. -/
theorem loyalty_engine_missing_customer_witness :
    (fun _ : Nat => (none : Option ℤ)) 1 = none ∧
    ((loyalty_engine [⟨1, 1, 0, 1000⟩, ⟨2, 1, 0, 500⟩] (fun _ => none)).1 =
        (loyalty_engine [⟨1, 1, 0, 1000⟩, ⟨2, 1, 0, 500⟩]
          (fun c => if c = 1 then some 0 else none)).1 ∧
      (loyalty_engine [⟨1, 1, 0, 1000⟩, ⟨2, 1, 0, 500⟩]
          (fun _ => none)).1.length =
        ([⟨1, 1, 0, 1000⟩, ⟨2, 1, 0, 500⟩] : List Tx).length) :=
  ⟨rfl, loyalty_engine_missing_customer [⟨1, 1, 0, 1000⟩, ⟨2, 1, 0, 500⟩]
    (fun _ => none) 1 rfl⟩

/-- C1 counterexample: a customer in the top monetary decile
(`m_score = 10`) who is also inactive for more than 60 days with a
positive point balance is labelled `At-Risk`, not `High Spenders` —
the later `.loc` write wins, so the claimed first-match precedence of
`High Spenders` does not hold. -/
theorem rfm_segment_precedence_counterexample :
    (10 : ℤ) ≤ (⟨1, 61, 10, 5⟩ : CustRow).m_score ∧
    (60 : ℤ) < (⟨1, 61, 10, 5⟩ : CustRow).recency ∧
    (0 : ℤ) < (⟨1, 61, 10, 5⟩ : CustRow).total_loyalty_points ∧
    assign_segment ⟨1, 61, 10, 5⟩ = "At-Risk" ∧
    assign_segment ⟨1, 61, 10, 5⟩ ≠ "High Spenders" := by decide

/-- C1 amended: segment labels are assigned with `At-Risk` taking
precedence — `At-Risk` whenever recency > 60 and
total_loyalty_points > 0 (even when m_score = 10); otherwise
`High Spenders` when m_score ≥ 10; otherwise `Core`. -/
theorem rfm_segment_precedence (c : CustRow) :
    assign_segment c =
      if 60 < c.recency ∧ 0 < c.total_loyalty_points then "At-Risk"
      else if 10 ≤ c.m_score then "High Spenders"
      else "Core" := by
  unfold assign_segment
  split_ifs <;> rfl

lemma mem_insertSorted (n a : Nat) :
    ∀ l : List Nat, a ∈ insertSorted n l ↔ a = n ∨ a ∈ l := by
  intro l
  induction l with
  | nil => simp [insertSorted]
  | cons m ms ih =>
    rw [insertSorted]
    by_cases hc : n ≤ m
    · rw [if_pos hc]
      simp
    · rw [if_neg hc]
      simp only [List.mem_cons, ih]
      tauto

lemma mem_sortNat (a : Nat) : ∀ l : List Nat, a ∈ sortNat l ↔ a ∈ l := by
  intro l
  induction l with
  | nil => simp [sortNat]
  | cons n ns ih =>
    rw [sortNat, mem_insertSorted, ih]
    simp

lemma lineSum_isSome_of_mem (lines : List LineItem) (txid : Nat)
    (hmem : txid ∈ lines.map (fun l => l.transaction_id)) :
    ∃ s, lineSum lines txid = some s := by
  rcases List.mem_map.1 hmem with ⟨l, hl, hlt⟩
  have hfl : l ∈ lines.filter (fun x => x.transaction_id = txid) :=
    List.mem_filter.2 ⟨hl, by simp [hlt]⟩
  have hfe : (lines.filter (fun x => x.transaction_id = txid)).isEmpty
      = false := by
    cases hfil : lines.filter (fun x => x.transaction_id = txid) with
    | nil =>
      rw [hfil] at hfl
      cases hfl
    | cons a as => rfl
  have hs : (lineSum lines txid).isSome = true := by
    simp [lineSum, hfe]
  exact Option.isSome_iff_exists.1 hs

lemma header_txid_aligned (headers : List HeaderRec) (lines : List LineItem)
    (hlab : headerLabels headers = (lineSumLabels lines).map some)
    (h : HeaderRec) (hh : h ∈ headers) :
    ∃ txid s, h.transaction_id = some txid ∧ lineSum lines txid = some s := by
  have h1 : h.transaction_id ∈ headerLabels headers := by
    rw [headerLabels]
    exact List.mem_map_of_mem _ hh
  rw [hlab] at h1
  rcases List.mem_map.1 h1 with ⟨txid, htl, htx⟩
  rw [lineSumLabels, mem_sortNat, List.mem_dedup] at htl
  rcases lineSum_isSome_of_mem lines txid htl with ⟨s, hs⟩
  exact ⟨txid, s, htx.symm, hs⟩

lemma quality_example_eval :
    quality_layer_header [exampleHeader] [exampleLine] =
      some ([], [exampleHeader]) := by
  have hlab : headerLabels [exampleHeader] =
      (lineSumLabels [exampleLine]).map some := by decide
  have hmm : headerMismatch [exampleLine] exampleHeader = true := by
    simp only [headerMismatch, exampleHeader, exampleLine, lineSum]
    norm_num
  have hrej : header_rejected [exampleLine] exampleHeader = true := by
    simp [header_rejected, hmm]
  rw [quality_layer_header, if_pos hlab]
  simp [hrej]

/-- C2 counterexample: on an identically-labeled single-transaction
input (where line 29's Series comparison is defined), a header whose
total 10.005 differs from its line sum 10 by 0.005 ≤ 0.01 lands in the
rejected partition, not the clean one — the partition compares totals
by exact inequality, not by the 0.01 tolerance. -/
theorem quality_header_tolerance_counterexample :
    |(2001 / 200 : ℚ) - 10| ≤ 1 / 100 ∧
    exampleHeader.total_amount = some (2001 / 200) ∧
    lineSum [exampleLine] 1 = some 10 ∧
    quality_layer_header [exampleHeader] [exampleLine] =
      some ([], [exampleHeader]) := by
  refine ⟨?_, rfl, ?_, quality_example_eval⟩
  · rw [abs_le]
    constructor <;> norm_num
  · simp [lineSum, exampleLine]

/-- C2 amended: whenever `quality_layer` produces a partition at all —
line 29's Series comparison requires the header transaction ids, in
table order, to coincide with the sorted distinct line transaction ids,
and otherwise pandas raises `ValueError` and no partition exists — a
header is rejected if and only if a required field is null, its total
is negative, or its total differs from its transaction's line-amount
sum by any nonzero amount (exact inequality, with a null total
comparing unequal).  The 0.01 tolerance exists only in the separate
`run_quality_checks` reporting utility, not in the partition. -/
theorem quality_header_reject_iff (headers : List HeaderRec)
    (lines : List LineItem) (h : HeaderRec)
    (clean rejected : List HeaderRec)
    (halign : quality_layer_header headers lines = some (clean, rejected)) :
    (h ∈ rejected ↔ h ∈ headers ∧
      (headerHasNull h = true ∨
        (∃ t, h.total_amount = some t ∧ t < 0) ∨
        (∃ txid s, h.transaction_id = some txid ∧
          lineSum lines txid = some s ∧
          (h.total_amount = none ∨ ∃ t, h.total_amount = some t ∧ t ≠ s)))) ∧
    (h ∈ clean ↔ h ∈ headers ∧
      ¬(headerHasNull h = true ∨
        (∃ t, h.total_amount = some t ∧ t < 0) ∨
        (∃ txid s, h.transaction_id = some txid ∧
          lineSum lines txid = some s ∧
          (h.total_amount = none ∨ ∃ t, h.total_amount = some t ∧ t ≠ s)))) := by
  rw [quality_layer_header] at halign
  by_cases hlab : headerLabels headers = (lineSumLabels lines).map some
  · rw [if_pos hlab] at halign
    simp only [Option.some.injEq, Prod.mk.injEq] at halign
    obtain ⟨hc, hr⟩ := halign
    subst hc
    subst hr
    have hneg : headerNeg h = true ↔ ∃ t, h.total_amount = some t ∧ t < 0 := by
      cases ht : h.total_amount with
      | none => simp [headerNeg, ht]
      | some t => simp [headerNeg, ht]
    have hinner : h ∈ headers →
        (header_rejected lines h = true ↔
          (headerHasNull h = true ∨
            (∃ t, h.total_amount = some t ∧ t < 0) ∨
            (∃ txid s, h.transaction_id = some txid ∧
              lineSum lines txid = some s ∧
              (h.total_amount = none ∨
                ∃ t, h.total_amount = some t ∧ t ≠ s)))) := by
      intro hh
      rcases header_txid_aligned headers lines hlab h hh with ⟨txid, s, htx, hs⟩
      have hmm : headerMismatch lines h = true ↔
          (h.total_amount = none ∨ ∃ t, h.total_amount = some t ∧ t ≠ s) := by
        cases ht : h.total_amount with
        | none => simp [headerMismatch, htx, hs, ht]
        | some t => simp [headerMismatch, htx, hs, ht]
      have hmm2 : headerMismatch lines h = true ↔
          (∃ txid2 s2, h.transaction_id = some txid2 ∧
            lineSum lines txid2 = some s2 ∧
            (h.total_amount = none ∨
              ∃ t, h.total_amount = some t ∧ t ≠ s2)) := by
        rw [hmm]
        constructor
        · intro hd
          exact ⟨txid, s, htx, hs, hd⟩
        · rintro ⟨txid2, s2, htx2, hs2, hd⟩
          rw [htx] at htx2
          injection htx2 with he
          subst he
          rw [hs] at hs2
          injection hs2 with he2
          subst he2
          exact hd
      rw [header_rejected]
      simp only [Bool.or_eq_true]
      rw [hneg, hmm2, or_assoc]
    have hbool : ∀ b : Bool, ((!b) = true ↔ ¬b = true) := by
      intro b
      cases b <;> simp
    constructor
    · rw [List.mem_filter]
      exact and_congr_right hinner
    · rw [List.mem_filter]
      refine and_congr_right ?_
      intro hh
      rw [hbool]
      exact not_congr (hinner hh)
  · rw [if_neg hlab] at halign
    exact Option.noConfusion halign

/-- Witness for the amended C2 at the aligned single-transaction
input. -/
theorem quality_header_reject_iff_witness :
    quality_layer_header [exampleHeader] [exampleLine] =
      some ([], [exampleHeader]) ∧
    ((exampleHeader ∈ [exampleHeader] ↔ exampleHeader ∈ [exampleHeader] ∧
      (headerHasNull exampleHeader = true ∨
        (∃ t, exampleHeader.total_amount = some t ∧ t < 0) ∨
        (∃ txid s, exampleHeader.transaction_id = some txid ∧
          lineSum [exampleLine] txid = some s ∧
          (exampleHeader.total_amount = none ∨
            ∃ t, exampleHeader.total_amount = some t ∧ t ≠ s)))) ∧
    (exampleHeader ∈ ([] : List HeaderRec) ↔
      exampleHeader ∈ [exampleHeader] ∧
      ¬(headerHasNull exampleHeader = true ∨
        (∃ t, exampleHeader.total_amount = some t ∧ t < 0) ∨
        (∃ txid s, exampleHeader.transaction_id = some txid ∧
          lineSum [exampleLine] txid = some s ∧
          (exampleHeader.total_amount = none ∨
            ∃ t, exampleHeader.total_amount = some t ∧ t ≠ s))))) :=
  ⟨quality_example_eval,
    quality_header_reject_iff [exampleHeader] [exampleLine] exampleHeader
      [] [exampleHeader] quality_example_eval⟩

lemma filter_event_map_eq_nil {α : Type} (f : α → Event) (nm : String)
    (hf : ∀ a, (f a).event ≠ nm) (l : List α) :
    (l.map f).filter (fun e => e.event = nm) = [] := by
  refine List.filter_eq_nil_iff.2 ?_
  intro e he
  rcases List.mem_map.1 he with ⟨a, _, rfl⟩
  simpa using hf a

lemma coins_earned_filter_flatMap (loyalty_df : List LoyaltyResult) :
    ((loyalty_df.flatMap mkCoinsEvents).filter
      (fun e => e.event = "coins_earned")).length = loyalty_df.length := by
  induction loyalty_df with
  | nil => rfl
  | cons r t ih =>
    rw [List.flatMap_cons, List.filter_append, List.length_append, ih]
    by_cases hr : 0 < r.coins_redeemed
    · simp [mkCoinsEvents, hr, Nat.add_comm]
    · simp [mkCoinsEvents, hr, Nat.add_comm]

lemma coins_redeemed_filter_flatMap (loyalty_df : List LoyaltyResult) :
    ((loyalty_df.flatMap mkCoinsEvents).filter
      (fun e => e.event = "coins_redeemed")).length =
      (loyalty_df.filter (fun r => 0 < r.coins_redeemed)).length := by
  induction loyalty_df with
  | nil => rfl
  | cons r t ih =>
    rw [List.flatMap_cons, List.filter_append, List.length_append, ih,
      List.filter_cons]
    by_cases hr : 0 < r.coins_redeemed
    · simp [mkCoinsEvents, hr, Nat.add_comm]
    · simp [mkCoinsEvents, hr]

/-- C3 counterexample: a loyalty result row with `coins_earned = 0`
still produces a `coins_earned` event — the source appends the earned
event unconditionally (line 205), so the claimed `> 0` guard for
`coins_earned` events does not hold. -/
theorem event_log_zero_earned_counterexample :
    (⟨1, 1, 0, 0, 50⟩ : LoyaltyResult).coins_earned = 0 ∧
    ((event_log [] [] [⟨1, 1, 0, 0, 50⟩] []).filter
      (fun e => e.event = "coins_earned")).length = 1 := by decide

/-- C3 amended: `event_log` emits exactly one `coins_earned` event per
loyalty result row regardless of the earned amount (including rows with
`coins_earned = 0`), and exactly one `coins_redeemed` event per row
with `coins_redeemed > 0`. -/
theorem event_log_coin_event_counts (headers : List Tx)
    (lines : List LineItem) (loyalty_df : List LoyaltyResult)
    (rfm_df : List RfmRow) :
    ((event_log headers lines loyalty_df rfm_df).filter
      (fun e => e.event = "coins_earned")).length = loyalty_df.length ∧
    ((event_log headers lines loyalty_df rfm_df).filter
      (fun e => e.event = "coins_redeemed")).length =
      (loyalty_df.filter (fun r => 0 < r.coins_redeemed)).length := by
  have htx1 := filter_event_map_eq_nil mkTransactionEvent "coins_earned"
    (fun a => by simp [mkTransactionEvent]) headers
  have htx2 := filter_event_map_eq_nil mkTransactionEvent "coins_redeemed"
    (fun a => by simp [mkTransactionEvent]) headers
  have hpp1 := filter_event_map_eq_nil mkPromoPurchaseEvent "coins_earned"
    (fun a => by simp [mkPromoPurchaseEvent])
    (lines.filter (fun l => l.promotion_id.isSome))
  have hpp2 := filter_event_map_eq_nil mkPromoPurchaseEvent "coins_redeemed"
    (fun a => by simp [mkPromoPurchaseEvent])
    (lines.filter (fun l => l.promotion_id.isSome))
  have hin1 := filter_event_map_eq_nil mkInactivityEvent "coins_earned"
    (fun a => by simp [mkInactivityEvent])
    (rfm_df.filter (fun r => r.segment = "At-Risk"))
  have hin2 := filter_event_map_eq_nil mkInactivityEvent "coins_redeemed"
    (fun a => by simp [mkInactivityEvent])
    (rfm_df.filter (fun r => r.segment = "At-Risk"))
  constructor
  · rw [event_log, List.filter_append, List.filter_append,
      List.filter_append, htx1, hpp1, hin1]
    simp [coins_earned_filter_flatMap]
  · rw [event_log, List.filter_append, List.filter_append,
      List.filter_append, htx2, hpp2, hin2]
    simp [coins_redeemed_filter_flatMap]

/-- C8: every notification produced by `notification_simulator` carries
a call-to-action built from the distance
`100 - (updated_balance mod 100)`; when the balance is an exact
multiple of 100 the distance is 100, and it is never 0. -/
theorem notification_distance (loyalty_df : List LoyaltyResult)
    (rfm_df : List RfmRow) (log : NotifLog)
    (hlog : log ∈ notification_simulator loyalty_df rfm_df) :
    log.dist_to_next = 100 - log.total_points % 100 ∧
    log.call_to_action =
      "Earn " ++ toString log.dist_to_next ++
        " more coins for your next reward!" ∧
    (log.total_points % 100 = 0 → log.dist_to_next = 100) ∧
    log.dist_to_next ≠ 0 := by
  rcases List.mem_filterMap.1 hlog with ⟨r, _, hmk⟩
  by_cases he : 0 < r.coins_earned
  · rw [if_pos he] at hmk
    simp only [Option.some.injEq] at hmk
    subst hmk
    refine ⟨rfl, rfl, ?_, ?_⟩
    · intro h0
      simp only [NotifLog.mk.injEq] at h0 ⊢
      omega
    · have hlt : r.updated_balance % 100 < 100 :=
        Int.emod_lt_of_pos r.updated_balance (by norm_num)
      simp only [ne_eq]
      omega
  · rw [if_neg he] at hmk
    exact absurd hmk (by simp)

/-- Witness for C8 at a single loyalty row: customer 1 earns 20 coins
reaching balance 200, an exact multiple of 100, giving distance 100. -/
theorem notification_distance_witness :
    (⟨1, "Standard_Earned", 20, 200, 100,
        "Earn 100 more coins for your next reward!"⟩ : NotifLog) ∈
      notification_simulator [⟨1, 1, 20, 0, 200⟩] [] ∧
    ((⟨1, "Standard_Earned", 20, 200, 100,
        "Earn 100 more coins for your next reward!"⟩ : NotifLog).dist_to_next =
      100 -
        (⟨1, "Standard_Earned", 20, 200, 100,
          "Earn 100 more coins for your next reward!"⟩ :
            NotifLog).total_points % 100 ∧
    (⟨1, "Standard_Earned", 20, 200, 100,
        "Earn 100 more coins for your next reward!"⟩ :
          NotifLog).call_to_action =
      "Earn " ++
        toString (⟨1, "Standard_Earned", 20, 200, 100,
          "Earn 100 more coins for your next reward!"⟩ :
            NotifLog).dist_to_next ++
        " more coins for your next reward!" ∧
    ((⟨1, "Standard_Earned", 20, 200, 100,
        "Earn 100 more coins for your next reward!"⟩ :
          NotifLog).total_points % 100 = 0 →
      (⟨1, "Standard_Earned", 20, 200, 100,
        "Earn 100 more coins for your next reward!"⟩ :
          NotifLog).dist_to_next = 100) ∧
    (⟨1, "Standard_Earned", 20, 200, 100,
        "Earn 100 more coins for your next reward!"⟩ :
          NotifLog).dist_to_next ≠ 0) :=
  ⟨by decide,
    notification_distance [⟨1, 1, 20, 0, 200⟩] []
      ⟨1, "Standard_Earned", 20, 200, 100,
        "Earn 100 more coins for your next reward!"⟩ (by decide)⟩

/-- C7: every output row of `inventory_risk_analysis` has
`potential_lost_units` equal to `avg_daily_sales` exactly when
`days_of_inventory_left < 1`, and equal to 0 otherwise (including when
coverage is 1.5 days or undefined), with
`potential_lost_revenue = potential_lost_units * avg_daily_sales`
(multiplying by the sales rate, not a unit price). -/
theorem inventory_lost_units_formula (pairs : List PairAgg)
    (row : InvRiskRow) (hrow : row ∈ inventory_risk_analysis pairs) :
    (∀ d, row.days_of_inventory_left = some d →
        ((d < 1 → row.potential_lost_units = row.avg_daily_sales) ∧
          (¬d < 1 → row.potential_lost_units = 0))) ∧
    (row.days_of_inventory_left = none → row.potential_lost_units = 0) ∧
    row.potential_lost_revenue =
      row.potential_lost_units * row.avg_daily_sales := by
  rcases List.mem_map.1 hrow with ⟨p, _, rfl⟩
  simp only [inventory_risk_row]
  by_cases h0 : p.total_units / window_days = 0
  · simp [h0]
  · simp only [h0, if_false]
    refine ⟨?_, by simp, ?_⟩
    · intro d hd
      simp only [Option.some.injEq] at hd
      subst hd
      constructor
      · intro hlt
        simp [hlt]
      · intro hlt
        simp [hlt]
    · by_cases hlt : p.current_stock_level / (p.total_units / window_days) < 1
      · simp [hlt]
      · simp [hlt]

/-- Witness for C7 at the pair (stock 3, 14 units over the 7-day
window): `avg_daily_sales = 2`, coverage 1.5 days, so lost units are 0
(1.5 is not below 1) and lost revenue is 0. -/
theorem inventory_lost_units_formula_witness :
    inventory_risk_row ⟨1, 1, 14, 3⟩ ∈
      inventory_risk_analysis [⟨1, 1, 14, 3⟩] ∧
    (inventory_risk_row ⟨1, 1, 14, 3⟩).days_of_inventory_left =
      some (3 / 2) ∧
    (inventory_risk_row ⟨1, 1, 14, 3⟩).potential_lost_units = 0 ∧
    ((∀ d, (inventory_risk_row ⟨1, 1, 14, 3⟩).days_of_inventory_left =
          some d →
        ((d < 1 → (inventory_risk_row ⟨1, 1, 14, 3⟩).potential_lost_units =
            (inventory_risk_row ⟨1, 1, 14, 3⟩).avg_daily_sales) ∧
          (¬d < 1 →
            (inventory_risk_row ⟨1, 1, 14, 3⟩).potential_lost_units = 0))) ∧
      ((inventory_risk_row ⟨1, 1, 14, 3⟩).days_of_inventory_left = none →
        (inventory_risk_row ⟨1, 1, 14, 3⟩).potential_lost_units = 0) ∧
      (inventory_risk_row ⟨1, 1, 14, 3⟩).potential_lost_revenue =
        (inventory_risk_row ⟨1, 1, 14, 3⟩).potential_lost_units *
          (inventory_risk_row ⟨1, 1, 14, 3⟩).avg_daily_sales) := by
  have hm : inventory_risk_row ⟨1, 1, 14, 3⟩ ∈
      inventory_risk_analysis [⟨1, 1, 14, 3⟩] :=
    List.mem_singleton.2 rfl
  refine ⟨hm, ?_, ?_,
    inventory_lost_units_formula [⟨1, 1, 14, 3⟩] (inventory_risk_row ⟨1, 1, 14, 3⟩) hm⟩
  · simp only [inventory_risk_row, window_days]
    norm_num
  · simp only [inventory_risk_row, window_days]
    norm_num

/-- C9: division by zero in ratio computations resolves to explicit
sentinels — a promotion with zero eligible customers reports both
funnel percentages as 0, and a pair with zero average daily sales
reports an undefined coverage classified `Unknown`. -/
theorem division_by_zero_sentinels :
    (∀ (headers : List Tx) (lines : List LineItem) (promo : Promo),
        (funnel_row headers lines promo).eligible = 0 →
          (funnel_row headers lines promo).pct_reacted = 0 ∧
          (funnel_row headers lines promo).pct_purchased = 0) ∧
    (∀ (pairs : List PairAgg) (row : InvRiskRow),
        row ∈ inventory_risk_analysis pairs → row.avg_daily_sales = 0 →
          row.days_of_inventory_left = none ∧ row.risk = "Unknown") := by
  constructor
  · intro headers lines promo h
    simp only [funnel_row] at h ⊢
    rw [if_pos h]
    exact ⟨rfl, rfl⟩
  · intro pairs row hrow h0
    rcases List.mem_map.1 hrow with ⟨p, _, rfl⟩
    simp only [inventory_risk_row] at h0 ⊢
    simp [h0, classify]

/-- Witness for C9: the empty sales table gives a promotion zero
eligible customers and percentages 0; the pair with zero units sold has
average daily sales 0, undefined coverage and risk `Unknown`. -/
theorem division_by_zero_sentinels_witness :
    ((funnel_row [] [] ⟨1, 0, 10⟩).eligible = 0 ∧
      (funnel_row [] [] ⟨1, 0, 10⟩).pct_reacted = 0 ∧
      (funnel_row [] [] ⟨1, 0, 10⟩).pct_purchased = 0) ∧
    ((inventory_risk_row ⟨1, 1, 0, 0⟩ ∈
        inventory_risk_analysis [⟨1, 1, 0, 0⟩] ∧
      (inventory_risk_row ⟨1, 1, 0, 0⟩).avg_daily_sales = 0) ∧
      (inventory_risk_row ⟨1, 1, 0, 0⟩).days_of_inventory_left = none ∧
      (inventory_risk_row ⟨1, 1, 0, 0⟩).risk = "Unknown") := by
  have he : (funnel_row [] [] ⟨1, 0, 10⟩).eligible = 0 := rfl
  have hm : inventory_risk_row ⟨1, 1, 0, 0⟩ ∈
      inventory_risk_analysis [⟨1, 1, 0, 0⟩] :=
    List.mem_singleton.2 rfl
  have ha : (inventory_risk_row ⟨1, 1, 0, 0⟩).avg_daily_sales = 0 := by
    simp only [inventory_risk_row, window_days]
    norm_num
  obtain ⟨hp1, hp2⟩ := division_by_zero_sentinels.1 [] [] ⟨1, 0, 10⟩ he
  obtain ⟨hd, hr⟩ := division_by_zero_sentinels.2 [⟨1, 1, 0, 0⟩]
    (inventory_risk_row ⟨1, 1, 0, 0⟩) hm ha
  exact ⟨⟨he, hp1, hp2⟩, ⟨hm, ha⟩, hd, hr⟩

end Retail
